import Mathlib

/-!
Verification of the CGEvent wrapper (src/src/event.rs of core-foundation-rs).

The file shallowly embeds the Rust module: the bitflags constants, the
C-style enums with their discriminants, the refcounted guard discipline
generated by the foreign_type! macro, the three fallible factories, and
the accessor/mutator wrappers. Native CoreGraphics calls are external to
the repository; where a claim depends on their behaviour the native
effect is modelled from the specification, and each such definition says
so in its doc comment.
-/

namespace CGEventSpec

/-! ## EventFlags (bitflags! block, src/src/event.rs lines 16-38)

The Rust type is a u64 bitmask; each constant is embedded as its numeric
value. -/

def CGEventFlagNull : Nat := 0

def CGEventFlagAlphaShift : Nat := 0x00010000

def CGEventFlagShift : Nat := 0x00020000

def CGEventFlagControl : Nat := 0x00040000

def CGEventFlagAlternate : Nat := 0x00080000

def CGEventFlagCommand : Nat := 0x00100000

def CGEventFlagHelp : Nat := 0x00400000

def CGEventFlagSecondaryFn : Nat := 0x00800000

def CGEventFlagNumericPad : Nat := 0x00200000

def CGEventFlagNonCoalesced : Nat := 0x00000100

/-- Width of the CGEventFlags mask: the Rust struct wraps a u64. -/
def flagsMaskBits : Nat := 64

/-! ## CGEventType (src/src/event.rs lines 43-74) -/

inductive CGEventType where
  | Null
  | LeftMouseDown
  | LeftMouseUp
  | RightMouseDown
  | RightMouseUp
  | MouseMoved
  | LeftMouseDragged
  | RightMouseDragged
  | KeyDown
  | KeyUp
  | FlagsChanged
  | ScrollWheel
  | TabletPointer
  | TabletProximity
  | OtherMouseDown
  | OtherMouseUp
  | OtherMouseDragged
  | TapDisabledByTimeout
  | TapDisabledByUserInput
  deriving DecidableEq, Repr

/-- Discriminant of each variant, as written explicitly in the repr(C)
Rust enum. -/
def CGEventType.toNat : CGEventType → Nat
  | .Null => 0
  | .LeftMouseDown => 1
  | .LeftMouseUp => 2
  | .RightMouseDown => 3
  | .RightMouseUp => 4
  | .MouseMoved => 5
  | .LeftMouseDragged => 6
  | .RightMouseDragged => 7
  | .KeyDown => 10
  | .KeyUp => 11
  | .FlagsChanged => 12
  | .ScrollWheel => 22
  | .TabletPointer => 23
  | .TabletProximity => 24
  | .OtherMouseDown => 25
  | .OtherMouseUp => 26
  | .OtherMouseDragged => 27
  | .TapDisabledByTimeout => 0xFFFFFFFE
  | .TapDisabledByUserInput => 0xFFFFFFFF

/-- The two out-of-band sentinel codes of CGEventType. -/
def CGEventType.isSentinel : CGEventType → Bool
  | .TapDisabledByTimeout => true
  | .TapDisabledByUserInput => true
  | _ => false

/-! ## CGMouseButton (src/src/event.rs lines 77-83)

The Rust enum carries no explicit values; repr(C) assigns sequential
discriminants starting at 0 in declaration order. -/

inductive CGMouseButton where
  | Left
  | Right
  | Center
  deriving DecidableEq, Repr

/-- Discriminant of each variant under the repr(C) sequential rule
applied to the declaration order Left, Right, Center. -/
def CGMouseButton.toNat : CGMouseButton → Nat
  | .Left => 0
  | .Right => 1
  | .Center => 2

/-- Button roles of the native convention, from the doc comment of the
extern CGEventCreateMouseEvent declaration (src/src/event.rs lines
240-243). -/
inductive NativeButtonRole where
  | primaryButton
  | secondaryRightButton
  | centerButton
  deriving DecidableEq, Repr

/-- Numeric button codes of the native convention: button 0 is the
primary button, button 1 the secondary (right) button, button 2 the
center button. -/
def NativeButtonRole.code : NativeButtonRole → Nat
  | .primaryButton => 0
  | .secondaryRightButton => 1
  | .centerButton => 2

/-- Role each CGMouseButton variant denotes, read off its name. -/
def CGMouseButton.role : CGMouseButton → NativeButtonRole
  | .Left => .primaryButton
  | .Right => .secondaryRightButton
  | .Center => .centerButton

/-! ## Reference-counted lifecycle (foreign_type! block, lines 94-101)

The foreign_type! macro generates a guard: drop runs CFRelease once and
clone runs CFRetain once on the shared native resource. CFRetain and
CFRelease themselves live in the external CoreFoundation library; their
counting behaviour is modelled from the specification. -/

/-- State of one shared native resource: its current reference count and
how many times it has been freed. -/
structure RcState where
  count : Nat
  frees : Nat
  deriving DecidableEq, Repr

/-- Modelled from the spec: CFRetain increments the shared reference
count of the native resource. -/
def CFRetain (s : RcState) : RcState :=
  { s with count := s.count + 1 }

/-- Modelled from the spec: CFRelease decrements the shared reference
count; the resource is freed when the count reaches zero. -/
def CFRelease (s : RcState) : RcState :=
  if s.count = 1 then { count := 0, frees := s.frees + 1 }
  else { s with count := s.count - 1 }

/-- Effect of Clone for CGEvent, from the foreign_type! block: exactly
one CFRetain. -/
def cgeventClone (s : RcState) : RcState := CFRetain s

/-- Effect of Drop for CGEvent, from the foreign_type! block: exactly
one CFRelease. -/
def cgeventDrop (s : RcState) : RcState := CFRelease s

/-- Lifecycle operations an owner population can perform on the shared
resource: obtaining a further owner by clone, or an owner being torn
down (its drop running). -/
inductive RcOp where
  | clone
  | drop
  deriving DecidableEq, Repr

def rcStep (s : RcState) : RcOp → RcState
  | .clone => cgeventClone s
  | .drop => cgeventDrop s

def rcRun (s : RcState) (ops : List RcOp) : RcState :=
  ops.foldl rcStep s

/-- Reference count reached after the listed operations, ignoring
freeing: used only to phrase validity of a trace. -/
def rcCountStep (n : Nat) : RcOp → Nat
  | .clone => n + 1
  | .drop => n - 1

/-- A trace is valid from count n when every operation finds the
resource still live (count positive): each owner acts while it exists
and nothing touches a freed resource. -/
def rcValid (n : Nat) : List RcOp → Bool
  | [] => true
  | op :: rest => decide (0 < n) && rcValid (rcCountStep n op) rest

/-- Number of clone operations in a trace: each one is an additional
owner obtained via clone. -/
def clones : List RcOp → Nat
  | [] => 0
  | .clone :: rest => clones rest + 1
  | .drop :: rest => clones rest

/-- Number of drop operations in a trace: each one is the teardown of
one owner. -/
def drops : List RcOp → Nat
  | [] => 0
  | .clone :: rest => drops rest
  | .drop :: rest => drops rest + 1

/-- State of a fresh resource as returned by a successful native create
call: one owner, never freed. -/
def rcInit : RcState := { count := 1, frees := 0 }

/-! ## The three factories (src/src/event.rs lines 110-151)

Each factory calls the corresponding native create function and checks
the returned pointer for null. The native functions are external; each
factory is parameterized by them. Pointers are embedded as Nat with 0
playing null. -/

/-- Points in global display coordinates, standing for CGPoint. -/
structure CGPoint where
  x : Int
  y : Int
  deriving DecidableEq, Repr

/-- Handle produced by a factory: wraps the raw resource pointer, as the
Rust CGEvent struct does. -/
structure CGEvent where
  ptr : Nat
  deriving DecidableEq, Repr

namespace CGEvent

/-- Embedding of CGEvent.new: calls CGEventCreate on the source pointer
and returns Ok on a non-null result, Err on null. -/
def new (CGEventCreate : Nat → Nat) (source_ptr : Nat) :
    Except Unit CGEvent :=
  let event_ref := CGEventCreate source_ptr
  if event_ref ≠ 0 then .ok ⟨event_ref⟩ else .error ()

/-- Embedding of CGEvent.new_keyboard_event: calls
CGEventCreateKeyboardEvent on the source pointer, keycode and keydown
flag, then performs the same null check. Keycodes are u16. -/
def new_keyboard_event (CGEventCreateKeyboardEvent : Nat → Nat → Bool → Nat)
    (source_ptr : Nat) (keycode : Nat) (keydown : Bool) :
    Except Unit CGEvent :=
  let event_ref := CGEventCreateKeyboardEvent source_ptr keycode keydown
  if event_ref ≠ 0 then .ok ⟨event_ref⟩ else .error ()

/-- Embedding of CGEvent.new_mouse_event: calls CGEventCreateMouseEvent
on the source pointer, mouse type, cursor position and button, then
performs the same null check. -/
def new_mouse_event
    (CGEventCreateMouseEvent : Nat → CGEventType → CGPoint → CGMouseButton → Nat)
    (source_ptr : Nat) (mouse_type : CGEventType)
    (mouse_cursor_position : CGPoint) (mouse_button : CGMouseButton) :
    Except Unit CGEvent :=
  let event_ref :=
    CGEventCreateMouseEvent source_ptr mouse_type mouse_cursor_position mouse_button
  if event_ref ≠ 0 then .ok ⟨event_ref⟩ else .error ()

end CGEvent

/-! ## Error taxonomy of the layer, from the specification -/

inductive CGError where
  | AllocationFailure
  | UnsupportedCapability
  deriving DecidableEq, Repr

/-! ## Pid-targeted posting (src/src/event.rs lines 165-170)

The post_to_pid method is guarded by the cfg attribute for the
elcapitan feature: the method is compiled only when the feature is
enabled. Its body calls the native CGEventPostToPid and returns unit;
there is no error path in it. The API surface is therefore a function
of the compile-time feature flag. -/

/-- Pid-targeted posting as the source defines it: with the elcapitan
feature enabled the method exists and always succeeds (its body posts
and returns unit); with the feature disabled the method does not exist
at all. -/
def post_to_pid_api (elcapitan : Bool) :
    Option (Int → CGEvent → Except CGError Unit) :=
  if elcapitan then some (fun _ _ => .ok ()) else none

/-- Modelled from the spec: post_to_pid as a runtime-checked capability
flag, always callable, reporting UnsupportedCapability when the
platform capability for pid-targeted posting is absent. -/
def post_to_pid_runtimeChecked (capability : Bool) (_pid : Int)
    (_e : CGEvent) : Except CGError Unit :=
  if capability then .ok () else .error .UnsupportedCapability

/-! ## Parameter passing of the factories (src/src/event.rs lines
110-151)

Each factory signature reads source: CGEventSource with no ampersand:
the EventSource argument is passed by value. Rust move semantics for
such an argument position are embedded below. -/

inductive ParamMode where
  | byValue
  | byRef
  deriving DecidableEq, Repr

/-- Mode of the source parameter of CGEvent.new, read off the
signature. -/
def newSourceMode : ParamMode := .byValue

/-- Mode of the source parameter of CGEvent.new_keyboard_event, read
off the signature. -/
def newKeyboardEventSourceMode : ParamMode := .byValue

/-- Mode of the source parameter of CGEvent.new_mouse_event, read off
the signature. -/
def newMouseEventSourceMode : ParamMode := .byValue

/-- Rust move semantics of an argument position: a by-value parameter
transfers ownership into the callee, which drops it; a by-reference
parameter leaves ownership with the caller. -/
def ParamMode.calleeTakesOwnership : ParamMode → Bool
  | .byValue => true
  | .byRef => false

/-- Rust move semantics: the caller can reuse the same value after the
call exactly when it was passed by reference. -/
def ParamMode.reusableAfterCall : ParamMode → Bool
  | .byValue => false
  | .byRef => true

/-- Whether any factory body mutates the source: the bodies only read
the raw pointer via source.as_ptr(), so none does. -/
def factoryMutatesSource : Bool := false

/-! ## Observable state of one native event resource

The attributes below are delegated to the native layer; the native
getter and setter behaviour is modelled from the specification. -/

/-- Modelled from the spec: the observable attributes of one native
event resource: the category tag, the 64-bit flags mask (a u64), and
the unicode override string payload (a sequence of UTF-16 code
units). -/
structure EventState where
  type : CGEventType
  flags : Nat
  unicode : List Nat
  deriving DecidableEq, Repr

/-- Modelled from the spec: the native setter CGEventSetFlags writes the
full modifier mask into the resource; the mask domain is u64. -/
def CGEventSetFlags (s : EventState) (flags : Nat) : EventState :=
  { s with flags := flags % 2 ^ 64 }

/-- Modelled from the spec: the native getter CGEventGetFlags reads the
stored mask back. -/
def CGEventGetFlags (s : EventState) : Nat := s.flags

/-- Modelled from the spec: the native setter CGEventSetType writes the
category tag and touches nothing else (setting type does not clear or
revalidate other fields). -/
def CGEventSetType (s : EventState) (event_type : CGEventType) : EventState :=
  { s with type := event_type }

/-- Modelled from the spec: the native getter CGEventGetType reads the
stored category tag back. -/
def CGEventGetType (s : EventState) : CGEventType := s.type

/-- Modelled from the spec: the native CGEventKeyboardSetUnicodeString
installs the first length code units of the buffer as the keyboard
event text override, with no validation. -/
def CGEventKeyboardSetUnicodeString (s : EventState) (length : Nat)
    (buf : List Nat) : EventState :=
  { s with unicode := buf.take length }

namespace EventState

/-- Embedding of CGEvent.set_flags: forwards to the native setter. -/
def set_flags (s : EventState) (flags : Nat) : EventState :=
  CGEventSetFlags s flags

/-- Embedding of CGEvent.get_flags: forwards to the native getter. -/
def get_flags (s : EventState) : Nat := CGEventGetFlags s

/-- Embedding of CGEvent.set_type: forwards to the native setter. -/
def set_type (s : EventState) (event_type : CGEventType) : EventState :=
  CGEventSetType s event_type

/-- Embedding of CGEvent.get_type: forwards to the native getter. -/
def get_type (s : EventState) : CGEventType := CGEventGetType s

/-- Embedding of CGEvent.set_string_from_utf16_unchecked: passes the
buffer and its length, cast to c_ulong (u64 on the supported targets),
to the native call. -/
def set_string_from_utf16_unchecked (s : EventState) (buf : List Nat) :
    EventState :=
  let buflen := buf.length % 2 ^ 64
  CGEventKeyboardSetUnicodeString s buflen buf

/-- UTF-16 code units of one character, as the encode_utf16 iterator of
Rust produces them: scalar values below 0x10000 give one unit, larger
ones a surrogate pair. -/
def encodeUtf16Char (c : Char) : List Nat :=
  if c.toNat < 0x10000 then [c.toNat]
  else
    [0xD800 + (c.toNat - 0x10000) / 0x400, 0xDC00 + (c.toNat - 0x10000) % 0x400]

/-- UTF-16 encoding of a string, collected code unit by code unit. -/
def encodeUtf16 (string : String) : List Nat :=
  (string.data.map encodeUtf16Char).flatten

/-- Embedding of CGEvent.set_string: encodes the string to UTF-16 and
forwards to set_string_from_utf16_unchecked. -/
def set_string (s : EventState) (string : String) : EventState :=
  set_string_from_utf16_unchecked s (encodeUtf16 string)

end EventState

/-! ## What each factory builds, at the resource level

The creation calls are native; their successful outcome is modelled
from the specification, while the null check around them is the
embedded source logic. The allocates flag models whether the native
layer can materialize the resource. -/

/-- Modelled from the spec: a successful create-null-event call builds a
neutral, null-category event. -/
def createdNullEvent : EventState :=
  { type := .Null, flags := 0, unicode := [] }

/-- The keyboard event family: the native layer generates the
appropriate key down, key up, or flags changed event from the keycode
and keydown arguments. -/
def keyboardFamily : List CGEventType := [.KeyDown, .KeyUp, .FlagsChanged]

/-- Modelled from the spec: a successful create-keyboard-event call
builds an event whose category the native layer selects from the
keyboard family based on the arguments; ktype stands for that native
selection. -/
def createdKeyboardEvent (ktype : Nat → Bool → CGEventType) (keycode : Nat)
    (keydown : Bool) : EventState :=
  { type := ktype keycode keydown, flags := 0, unicode := [] }

/-- Modelled from the spec: a successful create-mouse-event call builds
a mouse event of the requested subtype; the core performs no local
validation of the requested type. -/
def createdMouseEvent (mouse_type : CGEventType) : EventState :=
  { type := mouse_type, flags := 0, unicode := [] }

/-- State-level embedding of CGEvent.new: Err on a null native result,
otherwise a handle denoting the event the native layer built. -/
def new_state (allocates : Bool) : Except Unit EventState :=
  if allocates then .ok createdNullEvent else .error ()

/-- State-level embedding of CGEvent.new_keyboard_event. -/
def new_keyboard_event_state (allocates : Bool)
    (ktype : Nat → Bool → CGEventType) (keycode : Nat) (keydown : Bool) :
    Except Unit EventState :=
  if allocates then .ok (createdKeyboardEvent ktype keycode keydown)
  else .error ()

/-- State-level embedding of CGEvent.new_mouse_event: the requested
mouse type is forwarded to the native create call unvalidated. -/
def new_mouse_event_state (allocates : Bool) (mouse_type : CGEventType)
    (_mouse_cursor_position : CGPoint) (_mouse_button : CGMouseButton) :
    Except Unit EventState :=
  if allocates then .ok (createdMouseEvent mouse_type) else .error ()

/-! ## Lifecycle invariant -/

/-- Along any valid trace the reference count tracks clones minus drops
exactly, and the resource is freed exactly when the count reaches
zero. -/
theorem rcRun_spec (ops : List RcOp) : ∀ n f : Nat, rcValid n ops = true → 0 < n →
    (rcRun ⟨n, f⟩ ops).count + drops ops = n + clones ops ∧
    (rcRun ⟨n, f⟩ ops).frees =
      f + (if (rcRun ⟨n, f⟩ ops).count = 0 then 1 else 0) := by
  induction ops with
  | nil =>
    intro n f _ hn
    refine ⟨by simp [rcRun, drops, clones], ?_⟩
    have hc : (rcRun ⟨n, f⟩ []).count = n := rfl
    rw [hc]
    simp [rcRun, if_neg (Nat.pos_iff_ne_zero.mp hn)]
  | cons op rest ih =>
    intro n f hv hn
    have hv1 : rcValid (rcCountStep n op) rest = true := by
      simp [rcValid] at hv
      exact hv.2
    cases op with
    | clone =>
      have hrun : rcRun ⟨n, f⟩ (.clone :: rest) = rcRun ⟨n + 1, f⟩ rest := rfl
      have h := ih (n + 1) f (by simpa [rcCountStep] using hv1) (Nat.succ_pos n)
      rw [hrun]
      refine ⟨?_, h.2⟩
      simp only [clones, drops]
      omega
    | drop =>
      by_cases hone : n = 1
      · subst hone
        have hrest : rest = [] := by
          cases rest with
          | nil => rfl
          | cons x xs => simp [rcValid, rcCountStep] at hv1
        subst hrest
        have hrun : rcRun ⟨1, f⟩ [RcOp.drop] = ⟨0, f + 1⟩ := rfl
        rw [hrun]
        simp [clones, drops]
      · have hn1 : 0 < n - 1 := by omega
        have hrun : rcRun ⟨n, f⟩ (.drop :: rest) = rcRun ⟨n - 1, f⟩ rest := by
          simp [rcRun, rcStep, cgeventDrop, CFRelease, hone]
        have h := ih (n - 1) f (by simpa [rcCountStep] using hv1) hn1
        rw [hrun]
        refine ⟨?_, h.2⟩
        simp only [clones, drops]
        omega

/-! ## Claims -/

/-- C1: the clone operation of the CGEvent guard performs exactly one
retain and the drop destructor exactly one release; for any valid trace
in which every owner (the creating owner plus one per clone) releases
exactly once, the reference count ends at zero and the resource is
freed exactly once. -/
theorem C1_clone_retain_drop_release_free_once (ops : List RcOp)
    (hvalid : rcValid 1 ops = true)
    (howners : drops ops = clones ops + 1) :
    cgeventClone = CFRetain ∧
    cgeventDrop = CFRelease ∧
    (∀ s : RcState, (cgeventClone s).count = s.count + 1 ∧
      (cgeventClone s).frees = s.frees) ∧
    (rcRun rcInit ops).count = 0 ∧
    (rcRun rcInit ops).frees = 1 := by
  have hinit : rcRun rcInit ops = rcRun ⟨1, 0⟩ ops := rfl
  have h := rcRun_spec ops 1 0 hvalid Nat.one_pos
  have hcount : (rcRun ⟨1, 0⟩ ops).count = 0 := by
    have h1 := h.1
    omega
  have hfrees : (rcRun ⟨1, 0⟩ ops).frees = 1 := by
    have h2 := h.2
    rw [hcount] at h2
    simpa using h2
  exact ⟨rfl, rfl, fun s => ⟨rfl, rfl⟩, by rw [hinit]; exact hcount,
    by rw [hinit]; exact hfrees⟩

/-- Witness for C1 at the concrete trace clone, drop, drop: one clone,
two owners, two drops, count reaches zero and exactly one free. -/
theorem C1_clone_retain_drop_release_free_once_witness :
    rcValid 1 [RcOp.clone, RcOp.drop, RcOp.drop] = true ∧
    drops [RcOp.clone, RcOp.drop, RcOp.drop] =
      clones [RcOp.clone, RcOp.drop, RcOp.drop] + 1 ∧
    (rcRun rcInit [RcOp.clone, RcOp.drop, RcOp.drop]).count = 0 ∧
    (rcRun rcInit [RcOp.clone, RcOp.drop, RcOp.drop]).frees = 1 := by
  refine ⟨by decide, by decide, ?_, ?_⟩
  · exact (C1_clone_retain_drop_release_free_once _ (by decide) (by decide)).2.2.2.1
  · exact (C1_clone_retain_drop_release_free_once _ (by decide) (by decide)).2.2.2.2

/-- Behaviour of the shared null check wrapped around each native
create call. -/
theorem nullCheckSpec (r : Nat) :
    ((if r ≠ 0 then (Except.ok ⟨r⟩ : Except Unit CGEvent)
      else Except.error ()) = Except.error () ↔ r = 0) ∧
    ∀ hdl : CGEvent,
      (if r ≠ 0 then (Except.ok ⟨r⟩ : Except Unit CGEvent)
        else Except.error ()) = Except.ok hdl →
      hdl.ptr = r ∧ hdl.ptr ≠ 0 := by
  by_cases hr : r = 0
  · subst hr
    simp
  · simp only [hr, ne_eq, not_false_eq_true, if_true, reduceCtorEq, iff_false]
    refine ⟨by simp [hr], ?_⟩
    intro hdl hh
    have : (⟨r⟩ : CGEvent) = hdl := by
      exact Except.ok.inj hh
    subst this
    exact ⟨rfl, hr⟩

/-- C2: each of the three factories returns an error exactly when the
native creation call returns the null pointer, and on success the
returned handle wraps precisely the non-null native pointer; no
null-backed handle is ever produced. -/
theorem C2_factories_fail_iff_null :
    (∀ (create : Nat → Nat) (src : Nat),
      (CGEvent.new create src = .error () ↔ create src = 0) ∧
      ∀ hdl : CGEvent, CGEvent.new create src = .ok hdl →
        hdl.ptr = create src ∧ hdl.ptr ≠ 0) ∧
    (∀ (createKb : Nat → Nat → Bool → Nat) (src keycode : Nat) (keydown : Bool),
      (CGEvent.new_keyboard_event createKb src keycode keydown = .error () ↔
        createKb src keycode keydown = 0) ∧
      ∀ hdl : CGEvent,
        CGEvent.new_keyboard_event createKb src keycode keydown = .ok hdl →
        hdl.ptr = createKb src keycode keydown ∧ hdl.ptr ≠ 0) ∧
    (∀ (createMouse : Nat → CGEventType → CGPoint → CGMouseButton → Nat)
      (src : Nat) (t : CGEventType) (p : CGPoint) (b : CGMouseButton),
      (CGEvent.new_mouse_event createMouse src t p b = .error () ↔
        createMouse src t p b = 0) ∧
      ∀ hdl : CGEvent, CGEvent.new_mouse_event createMouse src t p b = .ok hdl →
        hdl.ptr = createMouse src t p b ∧ hdl.ptr ≠ 0) :=
  ⟨fun create src => nullCheckSpec (create src),
   fun createKb src keycode keydown => nullCheckSpec (createKb src keycode keydown),
   fun createMouse src t p b => nullCheckSpec (createMouse src t p b)⟩

/-- Witness for C2: a native layer answering pointer 42 yields a handle
wrapping 42, and one answering null yields the error. -/
theorem C2_factories_fail_iff_null_witness :
    ((⟨42⟩ : CGEvent).ptr = (fun (_ : Nat) => 42) 7 ∧ (⟨42⟩ : CGEvent).ptr ≠ 0) ∧
    CGEvent.new (fun _ => 0) 7 = .error () := by
  constructor
  · exact (C2_factories_fail_iff_null.1 (fun _ => 42) 7).2 ⟨42⟩ rfl
  · exact ((C2_factories_fail_iff_null.1 (fun _ => 0) 7).1).mpr rfl

/-- C3 counterexample: with the elcapitan feature disabled the source
has no post_to_pid method at all, so no call can report
UnsupportedCapability; the capability gate is a compile-time exclusion,
not the runtime check the claim describes. -/
theorem C3_counterexample_compile_time_exclusion :
    ¬ ∃ f, post_to_pid_api false = some f ∧
      ∀ (pid : Int) (e : CGEvent),
        f pid e = post_to_pid_runtimeChecked false pid e := by
  rintro ⟨f, hf, -⟩
  simp [post_to_pid_api] at hf

/-- C3 amended: pid-targeted posting is gated at compile time by the
elcapitan feature; with the feature disabled the method does not exist,
and with it enabled the method posts unconditionally and never reports
an error. -/
theorem C3_post_to_pid_compile_time_gate :
    post_to_pid_api false = none ∧
    ∃ f, post_to_pid_api true = some f ∧
      ∀ (pid : Int) (e : CGEvent), f pid e = .ok () :=
  ⟨rfl, fun _ _ => .ok (), rfl, fun _ _ => rfl⟩

/-- C4 counterexample: the source parameter of CGEvent.new is declared
by value, so the factory takes ownership of the EventSource, and Rust
move semantics forbid reusing the moved value afterwards — the claim
that factories only borrow by reference fails. -/
theorem C4_counterexample_source_taken_by_value :
    newSourceMode ≠ ParamMode.byRef ∧
    newSourceMode.calleeTakesOwnership = true ∧
    newSourceMode.reusableAfterCall = false := by decide

/-- C4 amended: every factory takes the EventSource by value, so each
call takes ownership of the source and drops it at the end of the call;
the same EventSource value is not reusable across factory calls without
cloning. The factories never mutate the source, which they only read
via as_ptr. -/
theorem C4_factories_consume_source :
    newSourceMode = ParamMode.byValue ∧
    newKeyboardEventSourceMode = ParamMode.byValue ∧
    newMouseEventSourceMode = ParamMode.byValue ∧
    newSourceMode.calleeTakesOwnership = true ∧
    newKeyboardEventSourceMode.calleeTakesOwnership = true ∧
    newMouseEventSourceMode.calleeTakesOwnership = true ∧
    newSourceMode.reusableAfterCall = false ∧
    newKeyboardEventSourceMode.reusableAfterCall = false ∧
    newMouseEventSourceMode.reusableAfterCall = false ∧
    factoryMutatesSource = false := by decide

/-- C5: the EventFlags constants carry exactly the documented numeric
values, and each fits the 64-bit mask. -/
theorem C5_event_flags_bit_values :
    CGEventFlagAlphaShift = 0x00010000 ∧
    CGEventFlagShift = 0x00020000 ∧
    CGEventFlagControl = 0x00040000 ∧
    CGEventFlagAlternate = 0x00080000 ∧
    CGEventFlagCommand = 0x00100000 ∧
    CGEventFlagHelp = 0x00400000 ∧
    CGEventFlagSecondaryFn = 0x00800000 ∧
    CGEventFlagNumericPad = 0x00200000 ∧
    CGEventFlagNonCoalesced = 0x00000100 ∧
    flagsMaskBits = 64 ∧
    CGEventFlagAlphaShift < 2 ^ flagsMaskBits ∧
    CGEventFlagShift < 2 ^ flagsMaskBits ∧
    CGEventFlagControl < 2 ^ flagsMaskBits ∧
    CGEventFlagAlternate < 2 ^ flagsMaskBits ∧
    CGEventFlagCommand < 2 ^ flagsMaskBits ∧
    CGEventFlagHelp < 2 ^ flagsMaskBits ∧
    CGEventFlagSecondaryFn < 2 ^ flagsMaskBits ∧
    CGEventFlagNumericPad < 2 ^ flagsMaskBits ∧
    CGEventFlagNonCoalesced < 2 ^ flagsMaskBits := by decide

/-- C6 counterexample: the mouse factory forwards its requested type
unvalidated, so requesting a sentinel code from a successful allocation
yields a handle whose type is that sentinel — the claim that no factory
ever constructs a sentinel-typed handle fails. -/
theorem C6_counterexample_mouse_factory_sentinel :
    new_mouse_event_state true .TapDisabledByTimeout ⟨0, 0⟩ .Left =
      .ok { type := .TapDisabledByTimeout, flags := 0, unicode := [] } ∧
    ¬ (∀ (alloc : Bool) (t : CGEventType) (p : CGPoint) (b : CGMouseButton)
        (e : EventState), new_mouse_event_state alloc t p b = .ok e →
        e.type.isSentinel = false) := by
  refine ⟨rfl, fun hall => ?_⟩
  have h := hall true .TapDisabledByTimeout ⟨0, 0⟩ .Left
    (createdMouseEvent .TapDisabledByTimeout) rfl
  exact absurd h (by decide)

/-- C6 amended: the EventType discriminants are exactly the documented
integers; the null factory and the keyboard factory never produce a
sentinel-typed handle (the native keyboard selection stays in the
keyboard family), but the mouse factory forwards its requested type
unvalidated, so the type of a successfully built mouse event is exactly
the requested one, sentinel or not. -/
theorem C6_event_type_discriminants (ktype : Nat → Bool → CGEventType)
    (hk : ∀ (kc : Nat) (kd : Bool), ktype kc kd ∈ keyboardFamily) :
    (CGEventType.toNat .Null = 0 ∧
     CGEventType.toNat .LeftMouseDown = 1 ∧
     CGEventType.toNat .LeftMouseUp = 2 ∧
     CGEventType.toNat .RightMouseDown = 3 ∧
     CGEventType.toNat .RightMouseUp = 4 ∧
     CGEventType.toNat .MouseMoved = 5 ∧
     CGEventType.toNat .LeftMouseDragged = 6 ∧
     CGEventType.toNat .RightMouseDragged = 7 ∧
     CGEventType.toNat .KeyDown = 10 ∧
     CGEventType.toNat .KeyUp = 11 ∧
     CGEventType.toNat .FlagsChanged = 12 ∧
     CGEventType.toNat .ScrollWheel = 22 ∧
     CGEventType.toNat .TabletPointer = 23 ∧
     CGEventType.toNat .TabletProximity = 24 ∧
     CGEventType.toNat .OtherMouseDown = 25 ∧
     CGEventType.toNat .OtherMouseUp = 26 ∧
     CGEventType.toNat .OtherMouseDragged = 27 ∧
     CGEventType.toNat .TapDisabledByTimeout = 0xFFFFFFFE ∧
     CGEventType.toNat .TapDisabledByUserInput = 0xFFFFFFFF) ∧
    (∀ (alloc : Bool) (e : EventState), new_state alloc = .ok e →
      e.type.isSentinel = false) ∧
    (∀ (kc : Nat) (kd : Bool) (e : EventState),
      new_keyboard_event_state true ktype kc kd = .ok e →
      e.type.isSentinel = false) ∧
    (∀ (alloc : Bool) (t : CGEventType) (p : CGPoint) (b : CGMouseButton)
      (e : EventState), new_mouse_event_state alloc t p b = .ok e →
      e.type = t) := by
  refine ⟨by decide, ?_, ?_, ?_⟩
  · intro alloc e he
    cases alloc with
    | false => simp [new_state] at he
    | true =>
      have : createdNullEvent = e := Except.ok.inj he
      subst this
      decide
  · intro kc kd e he
    have : createdKeyboardEvent ktype kc kd = e := Except.ok.inj he
    subst this
    have hmem := hk kc kd
    simp [keyboardFamily] at hmem
    show (ktype kc kd).isSentinel = false
    rcases hmem with h | h | h <;> rw [h] <;> decide
  · intro alloc t p b e he
    cases alloc with
    | false => simp [new_mouse_event_state] at he
    | true =>
      have : createdMouseEvent t = e := Except.ok.inj he
      subst this
      rfl

/-- Witness for C6 with the native keyboard selection always answering
KeyDown: a keyboard handle is never sentinel-typed and a concrete mouse
request comes back with exactly the requested type. -/
theorem C6_event_type_discriminants_witness :
    (createdKeyboardEvent (fun _ _ => .KeyDown) 4 true).type.isSentinel = false ∧
    (createdMouseEvent .OtherMouseDown).type = .OtherMouseDown := by
  have h := C6_event_type_discriminants (fun _ _ => .KeyDown)
    (fun _ _ => by simp [keyboardFamily])
  exact ⟨h.2.2.1 4 true _ rfl, h.2.2.2 true .OtherMouseDown ⟨0, 0⟩ .Left _ rfl⟩

/-- C7: set_string is exactly set_string_from_utf16_unchecked applied
to the UTF-16 encoding of the string, whose length in code units is
what reaches the native call; the unchecked operation accepts every
buffer, the empty one included, without error, installing the buffer as
the override string and touching nothing else. -/
theorem C7_set_string_forwards_utf16 :
    (∀ (e : EventState) (s : String),
      e.set_string s =
        e.set_string_from_utf16_unchecked (EventState.encodeUtf16 s)) ∧
    (∀ (e : EventState) (buf : List Nat), buf.length < 2 ^ 64 →
      (e.set_string_from_utf16_unchecked buf).unicode = buf ∧
      (e.set_string_from_utf16_unchecked buf).type = e.type ∧
      (e.set_string_from_utf16_unchecked buf).flags = e.flags) ∧
    (∀ e : EventState, (e.set_string_from_utf16_unchecked []).unicode = []) := by
  refine ⟨fun e s => rfl, ?_, fun e => rfl⟩
  intro e buf hlen
  refine ⟨?_, rfl, rfl⟩
  show buf.take (buf.length % 2 ^ 64) = buf
  rw [Nat.mod_eq_of_lt hlen, List.take_length]

/-- Witness for C7 at a two-unit buffer on a concrete event state. -/
theorem C7_set_string_forwards_utf16_witness :
    ((⟨.Null, 0, []⟩ : EventState).set_string_from_utf16_unchecked
      [72, 105]).unicode = [72, 105] :=
  ((C7_set_string_forwards_utf16.2.1 ⟨.Null, 0, []⟩ [72, 105] (by decide))).1

/-- C8: setting the type then reading it back returns the value set,
for every variant including the two sentinels, and setting the flags
then reading them back returns the mask set, for every representable
64-bit combination. -/
theorem C8_set_get_roundtrip :
    (∀ (e : EventState) (t : CGEventType), (e.set_type t).get_type = t) ∧
    (∀ (e : EventState) (f : Nat), f < 2 ^ 64 →
      (e.set_flags f).get_flags = f) := by
  refine ⟨fun e t => rfl, fun e f hf => ?_⟩
  show f % 2 ^ 64 = f
  exact Nat.mod_eq_of_lt hf

/-- Witness for C8 at a sentinel type and a concrete mask. -/
theorem C8_set_get_roundtrip_witness :
    ((⟨.Null, 0, []⟩ : EventState).set_type .TapDisabledByUserInput).get_type =
      .TapDisabledByUserInput ∧
    ((⟨.Null, 0, []⟩ : EventState).set_flags 0x00030000).get_flags = 0x00030000 :=
  ⟨C8_set_get_roundtrip.1 ⟨.Null, 0, []⟩ .TapDisabledByUserInput,
   C8_set_get_roundtrip.2 ⟨.Null, 0, []⟩ 0x00030000 (by decide)⟩

/-- C9: set_type rewrites only the category tag — flags and the
installed unicode override string are untouched — and in particular a
string installed beforehand survives a switch to any type, away from the
keyboard family included. -/
theorem C9_set_type_frame :
    (∀ (e : EventState) (t : CGEventType),
      (e.set_type t).flags = e.flags ∧
      (e.set_type t).unicode = e.unicode ∧
      (e.set_type t).type = t) ∧
    (∀ (e : EventState) (buf : List Nat) (t : CGEventType),
      ((e.set_string_from_utf16_unchecked buf).set_type t).unicode =
        (e.set_string_from_utf16_unchecked buf).unicode) ∧
    (∀ (e : EventState) (s : String) (t : CGEventType),
      ((e.set_string s).set_type t).unicode = (e.set_string s).unicode) :=
  ⟨fun _ _ => ⟨rfl, rfl, rfl⟩, fun _ _ _ => rfl, fun _ _ _ => rfl⟩

/-- C10: the MouseButton variants cross the ABI with the repr(C)
sequential discriminants Left 0, Right 1, Center 2, and these agree
with the native convention that 0 is the primary, 1 the secondary
(right) and 2 the center button. -/
theorem C10_mouse_button_discriminants :
    CGMouseButton.toNat .Left = 0 ∧
    CGMouseButton.toNat .Right = 1 ∧
    CGMouseButton.toNat .Center = 2 ∧
    (∀ b : CGMouseButton, b.toNat = b.role.code) := by
  refine ⟨rfl, rfl, rfl, fun b => ?_⟩
  cases b <;> rfl

end CGEventSpec
